import Mathlib

/-!
Shallow embedding of the asynchronous transaction-ingestion gateway:
the transaction data model, the state store operations, the submission
route, the posting client, the retry backoff, and the worker posting
protocol, each translated from the corresponding TypeScript source.
Machine numbers are modelled as Nat (timestamps, HTTP status codes,
delays in milliseconds) and Rat (monetary amounts); fallible calls are
modelled as explicit outcome values.
-/

/-- Transaction lifecycle status (models/transaction.ts, TransactionStatus). -/
inductive TransactionStatus
  | pending
  | processing
  | completed
  | failed
  deriving DecidableEq, Repr

/-- Outcome of one HTTP exchange with the downstream posting service:
either a response with a status code, an aborted call (timeout), or a
network-level failure. -/
inductive HttpAttempt
  | response (status : Nat)
  | timeout
  | netError (msg : String)
  deriving DecidableEq, Repr

/-- Result of PostingService.getTransaction as observed by callers:
the parsed record (present), null (absent), or a thrown error. -/
inductive GetOutcome
  | present
  | absent
  | errored (cause : String)
  deriving DecidableEq, Repr

/-- Embedding of PostingService.getTransaction (services/postingService.ts):
status 404 returns null; a non-ok status (outside 200..299) throws; an ok
status parses and returns the record; a timeout or network error throws. -/
def PostingService.getTransaction (transactionId : String) (r : HttpAttempt) : GetOutcome :=
  match r with
  | .response status =>
    if status = 404 then .absent
    else if 200 ≤ status ∧ status ≤ 299 then .present
    else .errored ("Failed to get transaction: " ++ toString status)
  | .timeout => .errored ("Timeout getting transaction " ++ transactionId)
  | .netError m => .errored m

/-- Embedding of calculateBackoffDelay (utils/retry.ts): exponential
backoff in milliseconds with default base 1000 ms. -/
def calculateBackoffDelay (attemptNumber : Nat) (baseDelayMs : Nat := 1000) : Nat :=
  baseDelayMs * 2 ^ attemptNumber

/-- The backoff block of the queue default job options
(services/queueService.ts): exponential with base delay 1000 ms. -/
structure BackoffOptions where
  kind : String
  delay : Nat
  deriving DecidableEq, Repr

/-- defaultJobOptions.backoff of the transaction queue. -/
def transactionQueueBackoff : BackoffOptions :=
  { kind := ("exponential"), delay := 1000 }

/-- Result of PostingService.postTransaction as observed by callers:
normal return on a 2xx response, a thrown error otherwise. -/
inductive PostOutcome
  | ok
  | failedPost (cause : String)
  deriving DecidableEq, Repr

/-- What the downstream does during one worker attempt: the outcome of
the GET before POST, of the POST, and of the verification GET after a
POST failure.  Components that a given control path never reaches are
simply ignored by the worker. -/
structure DownstreamBehavior where
  getBefore : GetOutcome
  postResult : PostOutcome
  getVerify : GetOutcome
  deriving DecidableEq, Repr

/-- One call to StateService.setState issued by the worker: the status,
the optional error string, and the optional retry count passed along. -/
structure StateWrite where
  status : TransactionStatus
  error : Option String
  retryCount : Option Nat
  deriving DecidableEq, Repr

/-- How one worker attempt ends at the queue boundary: normal return
(the job is acknowledged), a retryable throw with attempt budget left,
or a throw on the final attempt (terminal failure). -/
inductive AttemptOutcome
  | ack
  | retryNack
  | terminalNack
  deriving DecidableEq, Repr

/-- Observable effects of one execution of
TransactionWorker.processTransaction: the state writes in order,
whether POST was called, the milliseconds slept before the verification
GET (if any), and how the attempt ended. -/
structure AttemptResult where
  writes : List StateWrite
  postCalled : Bool
  sleptMs : Option Nat
  outcome : AttemptOutcome
  deriving DecidableEq, Repr

/-- Embedding of TransactionWorker.processTransaction
(workers/transactionWorker.ts), one attempt with the delivered
attemptNumber, against a downstream behaving as d.  Mirrors the source:
enter processing with retryCount = attemptNumber; GET before POST
(present completes without POST, a GET error falls to the catch);
POST (success completes); on POST failure sleep the backoff delay, then
the verification GET (present completes, absent rethrows the POST
error, an erroring verification GET throws its own error); the catch
either records a retry (attemptNumber below maxRetries) or writes the
terminal failed state. -/
def processTransaction (maxRetries attemptNumber : Nat) (d : DownstreamBehavior) : AttemptResult :=
  let enterProcessing : StateWrite := ⟨.processing, none, some attemptNumber⟩
  let markCompleted : StateWrite := ⟨.completed, none, none⟩
  let catchBranch := fun (cause : String) (postCalled : Bool) (sleptMs : Option Nat) =>
    if attemptNumber < maxRetries then
      { writes := [enterProcessing,
          ⟨.processing, some ("Retrying: " ++ cause), some (attemptNumber + 1)⟩],
        postCalled := postCalled, sleptMs := sleptMs,
        outcome := AttemptOutcome.retryNack }
    else
      { writes := [enterProcessing,
          ⟨.failed, some ("Failed after " ++ toString maxRetries ++ " retries: " ++ cause),
            some attemptNumber⟩],
        postCalled := postCalled, sleptMs := sleptMs,
        outcome := AttemptOutcome.terminalNack }
  match d.getBefore with
  | .present => ⟨[enterProcessing, markCompleted], false, none, .ack⟩
  | .errored c => catchBranch c false none
  | .absent =>
    match d.postResult with
    | .ok => ⟨[enterProcessing, markCompleted], true, none, .ack⟩
    | .failedPost c =>
      let delay := calculateBackoffDelay attemptNumber
      match d.getVerify with
      | .present => ⟨[enterProcessing, markCompleted], true, some delay, .ack⟩
      | .absent => catchBranch c true (some delay)
      | .errored c2 => catchBranch c2 true (some delay)

/-- An attempt is a pre-write failure when it reaches the catch block
with the downstream record still absent: the GET before POST errored,
or the POST failed and the verification GET did not find the record.
This is the spec notion of pre-write failure, computed from the paths
of processTransaction. -/
def preWriteFailure (d : DownstreamBehavior) : Bool :=
  match d.getBefore with
  | .present => false
  | .errored _ => true
  | .absent =>
    match d.postResult with
    | .ok => false
    | .failedPost _ =>
      match d.getVerify with
      | .present => false
      | .absent => true
      | .errored _ => true

/-- The queue-driven retry loop around processTransaction: attempts are
delivered with increasing attempt numbers while the worker throws with
retry budget left; an acknowledged or terminally failed job is not
redelivered. -/
def runWorker (maxRetries : Nat) : Nat → List DownstreamBehavior → List AttemptResult
  | _, [] => []
  | attemptNumber, d :: rest =>
    let r := processTransaction maxRetries attemptNumber d
    if r.outcome = .retryNack then
      r :: runWorker maxRetries (attemptNumber + 1) rest
    else
      [r]

/-- The per-transaction state record stored under key txn:{id}
(services/stateService.ts, static draft): status, retry count,
submission time, optional completion time and optional error.
Timestamps are modelled as Nat. -/
structure TransactionState where
  id : String
  status : TransactionStatus
  retryCount : Nat
  submittedAt : Nat
  completedAt : Option Nat := none
  error : Option String := none
  deriving DecidableEq, Repr

namespace StateService

/-- Embedding of StateService.create viewed at one key: if a record
exists it is returned and the store is untouched, otherwise a fresh
pending record with retryCount 0 and submittedAt now is written.
Returns (returned record, store after the call). -/
def create (now : Nat) (id : String) (s : Option TransactionState) :
    Option TransactionState × Option TransactionState :=
  match s with
  | some st => (some st, some st)
  | none =>
    let st : TransactionState :=
      { id := id, status := .pending, retryCount := 0, submittedAt := now }
    (some st, some st)

/-- Embedding of StateService.updateStatus viewed at one key: a missing
record is left missing and nothing is written; otherwise the status is
replaced, completedAt is set to now exactly when the new status is
completed, and a non-empty error string (the source tests truthiness,
so the empty string counts as absent) replaces the stored error. -/
def updateStatus (now : Nat) (status : TransactionStatus) (error : Option String)
    (s : Option TransactionState) : Option TransactionState :=
  match s with
  | none => none
  | some st =>
    let st1 := { st with status := status }
    let st2 := if status = .completed then { st1 with completedAt := some now } else st1
    let st3 :=
      match error with
      | some e => if e = "" then st2 else { st2 with error := some e }
      | none => st2
    some st3

/-- Embedding of StateService.incrementRetry viewed at one key: a
missing record yields 0 and no write; otherwise retryCount is bumped
and the new count returned. Returns (returned count, store after). -/
def incrementRetry (s : Option TransactionState) : Nat × Option TransactionState :=
  match s with
  | none => (0, none)
  | some st =>
    let st1 := { st with retryCount := st.retryCount + 1 }
    (st1.retryCount, some st1)

/-- First half of create as the source executes it: the awaited
redis.exists check.  Between this check and the later write another
execution may run, which is what the interleaving analysis exercises. -/
def createCheckExists (s : Option TransactionState) : Bool :=
  s.isSome

/-- Second half of create: acting on the earlier exists check, either
return without writing or write the fresh pending record. -/
def createCommit (existedAtCheck : Bool) (now : Nat) (id : String)
    (s : Option TransactionState) : Option TransactionState :=
  if existedAtCheck then s
  else some { id := id, status := .pending, retryCount := 0, submittedAt := now }

end StateService

/-- Run without interleaving, the exists-check plus commit decomposition
agrees with the one-shot embedding of create. -/
theorem createCommit_check_eq_create (now : Nat) (id : String) (s : Option TransactionState) :
    StateService.createCommit (StateService.createCheckExists s) now id s =
      (StateService.create now id s).2 := by
  cases s <;> rfl

/-- One state-store operation on a single transaction id: the create
call of the submission path, an updateStatus call, or an
incrementRetry call. -/
inductive StateOp
  | createOp (now : Nat) (id : String)
  | updateOp (now : Nat) (status : TransactionStatus) (error : Option String)
  | incrOp
  deriving DecidableEq, Repr

/-- Effect of one operation on the stored record. -/
def applyOp : StateOp → Option TransactionState → Option TransactionState
  | .createOp now id, s => (StateService.create now id s).2
  | .updateOp now status e, s => StateService.updateStatus now status e s
  | .incrOp, s => (StateService.incrementRetry s).2

/-- Effect of a sequence of operations, applied left to right. -/
def applyOps : List StateOp → Option TransactionState → Option TransactionState
  | [], s => s
  | op :: rest, s => applyOps rest (applyOp op s)

/-- The completedAt field of the stored record, if any record exists. -/
def completedAtOf (s : Option TransactionState) : Option Nat :=
  s.bind (fun st => st.completedAt)

/-- A submission payload as validated by the zod schema
(api/middleware/validation.ts).  The optional metadata record cannot
fail validation and is omitted. -/
structure SubmitRequest where
  id : String
  amount : ℚ
  currency : String
  description : String
  timestamp : String
  deriving DecidableEq, Repr

/-- Consume exactly n ASCII digits from the front of the character
list, returning the remainder. -/
def matchDigits : Nat → List Char → Option (List Char)
  | 0, cs => some cs
  | _ + 1, [] => none
  | n + 1, c :: cs => if c.isDigit then matchDigits n cs else none

/-- Consume one expected character from the front of the list. -/
def matchChar (ch : Char) : List Char → Option (List Char)
  | [] => none
  | c :: cs => if c = ch then some cs else none

/-- The date-time stem of the zod datetime pattern:
dddd-dd-ddTdd:dd:dd consumed from the front of the list. -/
def zodDatetimeStem (cs : List Char) : Option (List Char) :=
  ((((((((((matchDigits 4 cs).bind
    (matchChar '-')).bind
    (matchDigits 2)).bind
    (matchChar '-')).bind
    (matchDigits 2)).bind
    (matchChar 'T')).bind
    (matchDigits 2)).bind
    (matchChar ':')).bind
    (matchDigits 2)).bind
    (matchChar ':')).bind
    (matchDigits 2)

/-- The tail of the zod datetime pattern after the seconds: an optional
fraction of one or more digits, then the literal Z and end of input. -/
def zodDatetimeTail (cs : List Char) : Bool :=
  match cs with
  | '.' :: rest =>
    decide (rest.takeWhile Char.isDigit ≠ []) &&
      decide (rest.dropWhile Char.isDigit = ['Z'])
  | _ => decide (cs = ['Z'])

/-- Embedding of the default z.string().datetime() check used by the
schema: the anchored pattern of four digits, dash, two digits, dash,
two digits, T, three colon-separated two-digit groups, an optional
dot-fraction, and a terminal Z. -/
def isZodDatetime (s : String) : Bool :=
  match zodDatetimeStem s.data with
  | some rest => zodDatetimeTail rest
  | none => false

/-- One field-level validation issue as reported to the client. -/
structure FieldIssue where
  path : String
  message : String
  deriving DecidableEq, Repr

/-- Embedding of transactionSchema (api/middleware/validation.ts): the
list of field-level issues safeParse reports, empty exactly when the
payload is accepted.  Checks: id a non-empty string, amount strictly
positive, currency exactly three characters, description non-empty,
timestamp matching the zod datetime pattern. -/
def transactionSchemaIssues (r : SubmitRequest) : List FieldIssue :=
  (if 1 ≤ r.id.length then [] else [⟨("id"), ("Transaction ID is required")⟩])
    ++ (if 0 < r.amount then [] else [⟨("amount"), ("Amount must be positive")⟩])
    ++ (if r.currency.length = 3 then [] else [⟨("currency"), ("Currency must be 3 characters")⟩])
    ++ (if 1 ≤ r.description.length then [] else [⟨("description"), ("Description is required")⟩])
    ++ (if isZodDatetime r.timestamp then []
        else [⟨("timestamp"), ("Timestamp must be a valid ISO 8601 datetime")⟩])

/-- The schema of section 3 of the spec, written from its words: id
non-empty, amount strictly positive, currency exactly three
characters, description non-empty, timestamp a valid datetime (taken
as the datetime notion the validator itself names). -/
def specSchemaOk (r : SubmitRequest) : Prop :=
  r.id ≠ "" ∧ 0 < r.amount ∧ r.currency.length = 3 ∧ r.description ≠ "" ∧
    isZodDatetime r.timestamp = true

instance (r : SubmitRequest) : Decidable (specSchemaOk r) := by
  unfold specSchemaOk
  infer_instance

/-- Response of POST /api/transactions (api/routes/transactions.ts,
first draft): 400 with the issue list, 200 with the stored state, or
202 with id, status and message. -/
inductive SubmitResponse
  | badRequest (details : List FieldIssue)
  | okExisting (state : TransactionState)
  | accepted (id : String) (status : TransactionStatus) (message : String)
  deriving DecidableEq, Repr

/-- True exactly for a 202 Accepted response. -/
def SubmitResponse.isAccepted : SubmitResponse → Bool
  | .accepted _ _ _ => true
  | _ => false

/-- True exactly for a 400 Bad Request response. -/
def SubmitResponse.isBadRequest : SubmitResponse → Bool
  | .badRequest _ => true
  | _ => false

/-- Embedding of enqueueTransaction (services/queueService.ts): the
queue deduplicates by job id, so adding an id already present is a
no-op. -/
def transactionQueueAdd (jobId : String) (jobs : List String) : List String :=
  if jobId ∈ jobs then jobs else jobs ++ [jobId]

/-- Embedding of the POST /api/transactions handler
(api/routes/transactions.ts, first draft): validate with safeParse and
answer 400 on failure without side effects; otherwise create-or-fetch
the state record; a record whose status is not pending is returned
as-is with 200; otherwise the job is enqueued (idempotently by job id)
and 202 is returned.  Result: (response, store after, queue after). -/
def postTransactionsRoute (now : Nat) (req : SubmitRequest)
    (s : Option TransactionState) (jobs : List String) :
    SubmitResponse × Option TransactionState × List String :=
  let issues := transactionSchemaIssues req
  if issues ≠ [] then
    (.badRequest issues, s, jobs)
  else
    let created := StateService.create now req.id s
    match created.1 with
    | some st =>
      if st.status ≠ .pending then
        (.okExisting st, created.2, jobs)
      else
        (.accepted req.id .pending ("Transaction accepted for processing"),
          created.2, transactionQueueAdd req.id jobs)
    | none =>
      (.accepted req.id .pending ("Transaction accepted for processing"),
        created.2, transactionQueueAdd req.id jobs)

/-- The error message carried into the catch block of a pre-write
failure: the cause of the erroring GET before POST, the cause of the
erroring verification GET, or the rethrown POST error. -/
def preWriteCause (d : DownstreamBehavior) : String :=
  match d.getBefore with
  | .present => ""
  | .errored c => c
  | .absent =>
    match d.postResult with
    | .ok => ""
    | .failedPost c =>
      match d.getVerify with
      | .errored c2 => c2
      | _ => c

/-- A worker attempt ends in a retryable throw exactly when it is a
pre-write failure with retry budget left. -/
theorem processTransaction_retry_iff (m k : Nat) (d : DownstreamBehavior) :
    (processTransaction m k d).outcome = .retryNack ↔
      (preWriteFailure d = true ∧ k < m) := by
  rcases d with ⟨g1, p, g2⟩
  cases g1 <;> cases p <;> cases g2 <;>
    simp only [processTransaction, preWriteFailure] <;>
    (try split_ifs) <;> simp_all

/-- A worker attempt ends in a terminal throw exactly when it is a
pre-write failure with the retry budget exhausted. -/
theorem processTransaction_terminal_iff (m k : Nat) (d : DownstreamBehavior) :
    (processTransaction m k d).outcome = .terminalNack ↔
      (preWriteFailure d = true ∧ m ≤ k) := by
  rcases d with ⟨g1, p, g2⟩
  cases g1 <;> cases p <;> cases g2 <;>
    simp only [processTransaction, preWriteFailure] <;>
    (try split_ifs) <;> simp_all

/-- A worker attempt writes a failed state exactly when it ends in a
terminal throw. -/
theorem processTransaction_failed_write_iff (m k : Nat) (d : DownstreamBehavior) :
    (∃ w ∈ (processTransaction m k d).writes, w.status = .failed) ↔
      (preWriteFailure d = true ∧ m ≤ k) := by
  rcases d with ⟨g1, p, g2⟩
  cases g1 <;> cases p <;> cases g2 <;>
    simp only [processTransaction, preWriteFailure] <;>
    (try split_ifs) <;> simp_all

/-- Every retry count a worker attempt writes stays at most maxRetries
whenever the delivered attempt number is at most maxRetries. -/
theorem processTransaction_retryCount_le (m k : Nat) (hk : k ≤ m) (d : DownstreamBehavior) :
    ∀ w ∈ (processTransaction m k d).writes, ∀ rc, w.retryCount = some rc → rc ≤ m := by
  intro w hw rc hrc
  rcases d with ⟨g1, p, g2⟩
  cases g1 <;> cases p <;> cases g2 <;>
    simp only [processTransaction] at hw <;>
    (try split_ifs at hw) <;>
    simp only [List.mem_cons, List.mem_singleton, List.not_mem_nil, or_false] at hw <;>
    rcases hw with rfl | rfl <;> simp_all <;> omega

/-- The failed write of a worker attempt carries the delivered attempt
number as retry count and the terminal failure message built from
maxRetries and the pre-write cause. -/
theorem processTransaction_failed_write_shape (m k : Nat) (d : DownstreamBehavior) :
    ∀ w ∈ (processTransaction m k d).writes, w.status = .failed →
      w.retryCount = some k ∧
        w.error = some ("Failed after " ++ toString m ++ " retries: " ++ preWriteCause d) := by
  intro w hw hst
  rcases d with ⟨g1, p, g2⟩
  cases g1 <;> cases p <;> cases g2 <;>
    simp only [processTransaction, preWriteCause] at hw ⊢ <;>
    (try split_ifs at hw) <;>
    simp only [List.mem_cons, List.mem_singleton, List.not_mem_nil, or_false] at hw <;>
    rcases hw with rfl | rfl <;> simp_all

/-- C1: for every reserved job, if the GET before POST finds the record
already present downstream, the worker writes processing then
completed, acknowledges the job, and never calls POST during that
attempt. -/
theorem worker_get_before_post_dedup (maxRetries attemptNumber : Nat)
    (d : DownstreamBehavior) (h : d.getBefore = .present) :
    (processTransaction maxRetries attemptNumber d).writes =
        [⟨.processing, none, some attemptNumber⟩, ⟨.completed, none, none⟩] ∧
      (processTransaction maxRetries attemptNumber d).outcome = .ack ∧
      (processTransaction maxRetries attemptNumber d).postCalled = false := by
  rcases d with ⟨g1, p, g2⟩
  cases g1 <;> simp_all [processTransaction]

/-- C1 witness: a concrete attempt whose GET before POST finds the
record present. -/
theorem worker_get_before_post_dedup_witness :
    (processTransaction 5 0 ⟨.present, .ok, .absent⟩).writes =
        [⟨.processing, none, some 0⟩, ⟨.completed, none, none⟩] ∧
      (processTransaction 5 0 ⟨.present, .ok, .absent⟩).outcome = .ack ∧
      (processTransaction 5 0 ⟨.present, .ok, .absent⟩).postCalled = false :=
  worker_get_before_post_dedup 5 0 ⟨.present, .ok, .absent⟩ rfl

/-- C2: for every attempt whose POST errors, the worker sleeps the
exponential backoff delay base times two to the attempt number (base
1000 ms) and then verifies with a GET; if that GET finds the record
present, the worker writes completed and acknowledges instead of
retrying. -/
theorem worker_post_failure_verification (maxRetries attemptNumber : Nat)
    (d : DownstreamBehavior) (c : String)
    (h1 : d.getBefore = .absent) (h2 : d.postResult = .failedPost c)
    (h3 : d.getVerify = .present) :
    (processTransaction maxRetries attemptNumber d).sleptMs =
        some (1000 * 2 ^ attemptNumber) ∧
      (processTransaction maxRetries attemptNumber d).writes =
        [⟨.processing, none, some attemptNumber⟩, ⟨.completed, none, none⟩] ∧
      (processTransaction maxRetries attemptNumber d).outcome = .ack := by
  rcases d with ⟨g1, p, g2⟩
  cases g1 <;> cases p <;> cases g2 <;>
    simp_all [processTransaction, calculateBackoffDelay]

/-- C2 witness: a concrete post-write failure resolved by the
verification GET on attempt 2, slept 4000 ms. -/
theorem worker_post_failure_verification_witness :
    (processTransaction 5 2 ⟨.absent, .failedPost ("socket hang up"), .present⟩).sleptMs =
        some (1000 * 2 ^ 2) ∧
      (processTransaction 5 2 ⟨.absent, .failedPost ("socket hang up"), .present⟩).writes =
        [⟨.processing, none, some 2⟩, ⟨.completed, none, none⟩] ∧
      (processTransaction 5 2 ⟨.absent, .failedPost ("socket hang up"), .present⟩).outcome = .ack :=
  worker_post_failure_verification 5 2 ⟨.absent, .failedPost ("socket hang up"), .present⟩
    ("socket hang up") rfl rfl rfl

/-- Unfolding of the retry loop on a delivered attempt. -/
theorem runWorker_cons (m k : Nat) (d : DownstreamBehavior) (rest : List DownstreamBehavior) :
    runWorker m k (d :: rest) =
      if (processTransaction m k d).outcome = .retryNack then
        processTransaction m k d :: runWorker m (k + 1) rest
      else [processTransaction m k d] := by
  simp [runWorker]

/-- Every retry count written during a run of the retry loop stays at
most maxRetries. -/
theorem runWorker_retryCount_le (m : Nat) :
    ∀ (ds : List DownstreamBehavior) (k : Nat), k ≤ m →
      ∀ r ∈ runWorker m k ds, ∀ w ∈ r.writes, ∀ rc, w.retryCount = some rc → rc ≤ m := by
  intro ds
  induction ds with
  | nil =>
    intro k hk r hr
    simp [runWorker] at hr
  | cons d rest ih =>
    intro k hk r hr w hw rc hrc
    rw [runWorker_cons] at hr
    by_cases hout : (processTransaction m k d).outcome = .retryNack
    · rw [if_pos hout] at hr
      rcases List.mem_cons.mp hr with rfl | hmem
      · exact processTransaction_retryCount_le m k hk d w hw rc hrc
      · have hlt : k < m := ((processTransaction_retry_iff m k d).mp hout).2
        exact ih (k + 1) (by omega) r hmem w hw rc hrc
    · rw [if_neg hout] at hr
      rcases List.mem_singleton.mp hr with rfl
      exact processTransaction_retryCount_le m k hk d w hw rc hrc

/-- A run of the retry loop writes a failed state exactly when the
first maxRetries plus one deliveries are all pre-write failures. -/
theorem runWorker_failed_iff (m : Nat) :
    ∀ (ds : List DownstreamBehavior) (k : Nat), k ≤ m →
      ((∃ r ∈ runWorker m k ds, ∃ w ∈ r.writes, w.status = .failed) ↔
        (m - k < ds.length ∧ ∀ d ∈ ds.take (m - k + 1), preWriteFailure d = true)) := by
  intro ds
  induction ds with
  | nil =>
    intro k hk
    simp [runWorker]
  | cons d rest ih =>
    intro k hk
    by_cases hpw : preWriteFailure d = true
    · by_cases hlt : k < m
      · have hout : (processTransaction m k d).outcome = .retryNack :=
          (processTransaction_retry_iff m k d).mpr ⟨hpw, hlt⟩
        rw [runWorker_cons, if_pos hout]
        have hnofail : ¬ ∃ w ∈ (processTransaction m k d).writes, w.status = .failed := by
          rw [processTransaction_failed_write_iff]
          rintro ⟨_, hle⟩
          omega
        have hsub : m - (k + 1) + 1 = m - k := by omega
        rw [List.exists_mem_cons_iff]
        rw [ih (k + 1) (by omega)]
        rw [hsub]
        have htake : (d :: rest).take (m - k + 1) = d :: rest.take (m - k) := by
          have : m - k + 1 = (m - k) + 1 := rfl
          rw [this, List.take_succ_cons]
        rw [htake]
        simp only [List.forall_mem_cons, List.length_cons, hpw, true_and]
        constructor
        · rintro (hfail | ⟨h1, h2⟩)
          · exact absurd hfail hnofail
          · exact ⟨by omega, h2⟩
        · rintro ⟨h1, h2⟩
          exact Or.inr ⟨by omega, h2⟩
      · have hle : m ≤ k := by omega
        have hterm : (processTransaction m k d).outcome = .terminalNack :=
          (processTransaction_terminal_iff m k d).mpr ⟨hpw, hle⟩
        have hout : ¬ (processTransaction m k d).outcome = .retryNack := by
          rw [hterm]
          intro hcontra
          exact AttemptOutcome.noConfusion hcontra
        rw [runWorker_cons, if_neg hout]
        have hzero : m - k = 0 := by omega
        rw [hzero]
        have htake : (d :: rest).take (0 + 1) = [d] := by
          rw [List.take_succ_cons, List.take_zero]
        rw [htake]
        simp [processTransaction_failed_write_iff, hpw, hle]
    · have hout : ¬ (processTransaction m k d).outcome = .retryNack := by
        intro hcontra
        exact hpw ((processTransaction_retry_iff m k d).mp hcontra).1
      rw [runWorker_cons, if_neg hout]
      have htake : (d :: rest).take (m - k + 1) = d :: rest.take (m - k) :=
        List.take_succ_cons
      rw [htake]
      simp [processTransaction_failed_write_iff, hpw, List.forall_mem_cons]

/-- Every failed write of a run of the retry loop carries retry count
maxRetries and the terminal failure message. -/
theorem runWorker_failed_shape (m : Nat) :
    ∀ (ds : List DownstreamBehavior) (k : Nat), k ≤ m →
      ∀ r ∈ runWorker m k ds, ∀ w ∈ r.writes, w.status = .failed →
        w.retryCount = some m ∧
          ∃ c, w.error = some ("Failed after " ++ toString m ++ " retries: " ++ c) := by
  intro ds
  induction ds with
  | nil =>
    intro k hk r hr
    simp [runWorker] at hr
  | cons d rest ih =>
    intro k hk r hr w hw hst
    rw [runWorker_cons] at hr
    by_cases hout : (processTransaction m k d).outcome = .retryNack
    · rw [if_pos hout] at hr
      rcases List.mem_cons.mp hr with rfl | hmem
      · have hle : m ≤ k :=
          ((processTransaction_failed_write_iff m k d).mp ⟨w, hw, hst⟩).2
        have hkm : k = m := by omega
        have hshape := processTransaction_failed_write_shape m k d w hw hst
        rw [hkm] at hshape
        exact ⟨hshape.1, preWriteCause d, hshape.2⟩
      · have hlt : k < m := ((processTransaction_retry_iff m k d).mp hout).2
        exact ih (k + 1) (by omega) r hmem w hw hst
    · rw [if_neg hout] at hr
      rcases List.mem_singleton.mp hr with rfl
      have hle : m ≤ k :=
        ((processTransaction_failed_write_iff m k d).mp ⟨w, hw, hst⟩).2
      have hkm : k = m := by omega
      have hshape := processTransaction_failed_write_shape m k d w hw hst
      rw [hkm] at hshape
      exact ⟨hshape.1, preWriteCause d, hshape.2⟩

/-- A terminally failing attempt is the last element of a run of the
retry loop: no later attempt is delivered for the job. -/
theorem runWorker_terminal_last (m : Nat) :
    ∀ (ds : List DownstreamBehavior) (k : Nat) (pre : List AttemptResult) (r : AttemptResult)
      (post : List AttemptResult),
      runWorker m k ds = pre ++ r :: post → r.outcome = .terminalNack → post = [] := by
  intro ds
  induction ds with
  | nil =>
    intro k pre r post h _
    simp [runWorker] at h
  | cons d rest ih =>
    intro k pre r post h hterm
    rw [runWorker_cons] at h
    by_cases hout : (processTransaction m k d).outcome = .retryNack
    · rw [if_pos hout] at h
      cases pre with
      | nil =>
        simp only [List.nil_append, List.cons.injEq] at h
        rw [← h.1] at hterm
        rw [hout] at hterm
        exact AttemptOutcome.noConfusion hterm
      | cons p0 pre2 =>
        simp only [List.cons_append, List.cons.injEq] at h
        exact ih (k + 1) pre2 r post h.2 hterm
    · rw [if_neg hout] at h
      cases pre with
      | nil =>
        simp only [List.nil_append, List.cons.injEq] at h
        exact h.2.symm
      | cons p0 pre2 =>
        simp only [List.cons_append, List.cons.injEq] at h
        exact absurd h.2.symm (List.append_ne_nil_of_right_ne_nil pre2 (List.cons_ne_nil r post))

/-- True when the second string occurs as a contiguous substring of the
first. -/
def containsSubstr (s sub : String) : Bool :=
  (List.range (s.length + 1)).any (fun i => sub.data.isPrefixOf (s.data.drop i))

/-- The error strings of the failed writes of a worker trace, in
order. -/
def failedWriteErrors (t : List AttemptResult) : List (Option String) :=
  (t.map AttemptResult.writes).flatten.filterMap
    (fun w => if w.status = .failed then some w.error else none)

/-- A downstream that never has the record and rejects every POST: each
attempt is a pre-write failure. -/
def persistentFailure : DownstreamBehavior :=
  ⟨.absent, .failedPost ("connection reset"), .absent⟩

/-- C3 counterexample: with maxRetries 5 and six delivered pre-write
failures, the worker ends in a failed state whose only failure error is
the message Failed after 5 retries with the cause, which does not
contain the substring claimed by the spec, max retries exceeded. -/
theorem worker_max_retries_message_counterexample :
    failedWriteErrors (runWorker 5 0 (List.replicate 6 persistentFailure)) =
        [some ("Failed after 5 retries: connection reset")] ∧
      containsSubstr ("Failed after 5 retries: connection reset") ("max retries exceeded")
        = false := by
  decide

/-- C3 (amended): over any run of the retry loop, every written retry
count is at most maxRetries; a failed state is written exactly when the
first maxRetries plus one deliveries are all pre-write failures; the
failed write carries retry count maxRetries and an error of the form
Failed after maxRetries retries with the cause (not the spec wording
max retries exceeded); and the terminally failing attempt is the last
one delivered, so no later attempt mutates the state. -/
theorem worker_retry_fail_invariant (m : Nat) (ds : List DownstreamBehavior) :
    (∀ r ∈ runWorker m 0 ds, ∀ w ∈ r.writes, ∀ rc, w.retryCount = some rc → rc ≤ m) ∧
      ((∃ r ∈ runWorker m 0 ds, ∃ w ∈ r.writes, w.status = .failed) ↔
        (m < ds.length ∧ ∀ d ∈ ds.take (m + 1), preWriteFailure d = true)) ∧
      (∀ r ∈ runWorker m 0 ds, ∀ w ∈ r.writes, w.status = .failed →
        w.retryCount = some m ∧
          ∃ c, w.error = some ("Failed after " ++ toString m ++ " retries: " ++ c)) ∧
      (∀ pre r post, runWorker m 0 ds = pre ++ r :: post →
        r.outcome = .terminalNack → post = []) := by
  refine ⟨runWorker_retryCount_le m ds 0 (Nat.zero_le m), ?_,
    runWorker_failed_shape m ds 0 (Nat.zero_le m),
    fun pre r post h ht => runWorker_terminal_last m ds 0 pre r post h ht⟩
  have h := runWorker_failed_iff m ds 0 (Nat.zero_le m)
  simpa using h

/-- C3 witness: a concrete run with maxRetries 1 and two pre-write
failures reaches a failed write, through the iff of the invariant. -/
theorem worker_retry_fail_invariant_witness :
    ∃ r ∈ runWorker 1 0 [persistentFailure, persistentFailure],
      ∃ w ∈ r.writes, w.status = .failed :=
  (worker_retry_fail_invariant 1 [persistentFailure, persistentFailure]).2.1.mpr
    (by decide)

/-- C10: for an id with no stored record, updateStatus returns without
error and writes nothing, and incrementRetry returns 0 and writes
nothing; a status write for an expired or deleted record is silently
dropped. -/
theorem missing_record_updates_are_noops (now : Nat) (status : TransactionStatus)
    (e : Option String) :
    StateService.updateStatus now status e none = none ∧
      StateService.incrementRetry none = (0, none) :=
  ⟨rfl, rfl⟩

/-- C5 counterexample: the exists check and the write of create are
separated by a suspension point, so two create calls for the same id
may both observe absence and then both write; the second write
overwrites the record the first call created (the submittedAt values
differ). -/
theorem create_interleaving_counterexample :
    StateService.createCommit (StateService.createCheckExists none) 0 ("t") none =
        some { id := ("t"), status := .pending, retryCount := 0, submittedAt := 0 } ∧
      StateService.createCommit (StateService.createCheckExists none) 7 ("t")
          (StateService.createCommit (StateService.createCheckExists none) 0 ("t") none) =
        some { id := ("t"), status := .pending, retryCount := 0, submittedAt := 7 } ∧
      StateService.createCommit (StateService.createCheckExists none) 7 ("t")
          (StateService.createCommit (StateService.createCheckExists none) 0 ("t") none) ≠
        StateService.createCommit (StateService.createCheckExists none) 0 ("t") none := by
  decide

/-- C5 (amended): run without interleaving, create is first-writer-wins
and idempotent: when a record exists it is returned unchanged and the
stored state is untouched.  Atomicity under interleaving does not hold
(see the counterexample). -/
theorem create_sequential_first_writer_wins (now : Nat) (id : String) (st : TransactionState) :
    StateService.create now id (some st) = (some st, some st) :=
  rfl

/-- updateStatus on an existing record yields a record whose status is
the requested one, with completedAt set to now exactly when the
requested status is completed and kept otherwise. -/
theorem updateStatus_some_status (now : Nat) (status : TransactionStatus) (e : Option String)
    (st0 : TransactionState) :
    ∃ st1, StateService.updateStatus now status e (some st0) = some st1 ∧
      st1.status = status ∧
      st1.completedAt =
        (if status = TransactionStatus.completed then some now else st0.completedAt) := by
  cases e with
  | none =>
    by_cases hc : status = TransactionStatus.completed <;>
      exact ⟨_, rfl, by simp [StateService.updateStatus, hc],
        by simp [StateService.updateStatus, hc]⟩
  | some estr =>
    by_cases hc : status = TransactionStatus.completed <;>
      by_cases hemp : estr = ("") <;>
        exact ⟨_, rfl, by simp [StateService.updateStatus, hc, hemp],
          by simp [StateService.updateStatus, hc, hemp]⟩

/-- One step of the state store preserves the invariant that a
completed record has completedAt set. -/
theorem applyOp_completedAt_invariant (op : StateOp) (s : Option TransactionState)
    (h : ∀ st, s = some st → st.status = .completed → st.completedAt.isSome = true) :
    ∀ st, applyOp op s = some st → st.status = .completed → st.completedAt.isSome = true := by
  intro st hst hcomp
  cases op with
  | createOp now id =>
    cases s with
    | none =>
      simp [applyOp, StateService.create] at hst
      rw [← hst] at hcomp
      exact absurd hcomp (by simp)
    | some st0 =>
      simp [applyOp, StateService.create] at hst
      exact h st (by rw [hst]) hcomp
  | updateOp now status e =>
    cases s with
    | none => simp [applyOp, StateService.updateStatus] at hst
    | some st0 =>
      obtain ⟨st1, heq, hstat, hcompAt⟩ := updateStatus_some_status now status e st0
      simp only [applyOp] at hst
      rw [heq, Option.some.injEq] at hst
      subst hst
      rw [hstat] at hcomp
      rw [hcompAt, if_pos hcomp]
      rfl
  | incrOp =>
    cases s with
    | none => simp [applyOp, StateService.incrementRetry] at hst
    | some st0 =>
      simp only [applyOp, StateService.incrementRetry, Option.some.injEq] at hst
      have h0 := h st0 rfl
      rw [← hst] at hcomp ⊢
      simp at hcomp ⊢
      exact h0 hcomp

/-- Any sequence of state-store operations preserves the invariant that
a completed record has completedAt set. -/
theorem applyOps_completedAt_invariant (ops : List StateOp) :
    ∀ s, (∀ st, s = some st → st.status = .completed → st.completedAt.isSome = true) →
      ∀ st, applyOps ops s = some st → st.status = .completed → st.completedAt.isSome = true := by
  induction ops with
  | nil => intro s h st hs; exact h st hs
  | cons op rest ih =>
    intro s h
    exact ih (applyOp op s) (applyOp_completedAt_invariant op s h)

/-- C9 counterexample: create then update to failed yields a record
whose status is failed while completedAt is unset, so completedAt is
not set iff the status is completed or failed. -/
theorem completedAt_failed_counterexample :
    applyOps [.createOp 0 ("t"), .updateOp 5 .failed (some ("boom"))] none =
        some { id := ("t"), status := .failed, retryCount := 0, submittedAt := 0,
               completedAt := none, error := some ("boom") } ∧
      ¬ (((none : Option Nat).isSome = true) ↔
          (TransactionStatus.failed = .completed ∨ TransactionStatus.failed = .failed)) := by
  decide

/-- C9 (amended): on every record reachable by create and update
operations, completedAt is set whenever the status is completed, and it
is set only by an update to completed: an update to failed (or any
other non-completed status), a create, and a retry increment all leave
completedAt exactly as it was. -/
theorem completedAt_only_on_completion (ops : List StateOp) :
    (∀ st, applyOps ops none = some st → st.status = .completed →
        st.completedAt.isSome = true) ∧
      (∀ now status e s, status ≠ TransactionStatus.completed →
        completedAtOf (StateService.updateStatus now status e s) = completedAtOf s) ∧
      (∀ now id s, completedAtOf ((StateService.create now id s).2) = completedAtOf s) ∧
      (∀ s, completedAtOf ((StateService.incrementRetry s).2) = completedAtOf s) := by
  refine ⟨applyOps_completedAt_invariant ops none (by intro st hst; exact absurd hst (by simp)),
    ?_, ?_, ?_⟩
  · intro now status e s h
    cases s with
    | none => rfl
    | some st0 =>
      cases e with
      | none => simp [StateService.updateStatus, completedAtOf, h]
      | some estr =>
        simp only [StateService.updateStatus, completedAtOf, if_neg h]
        split_ifs <;> simp
  · intro now id s
    cases s <;> simp [StateService.create, completedAtOf]
  · intro s
    cases s <;> simp [StateService.incrementRetry, completedAtOf]

/-- C9 witness: a record created then updated to completed has
completedAt set, through the reachability invariant. -/
theorem completedAt_only_on_completion_witness :
    (({ id := ("t"), status := .completed, retryCount := 0, submittedAt := 0,
        completedAt := some 3, error := none } : TransactionState).completedAt).isSome = true :=
  (completedAt_only_on_completion [.createOp 0 ("t"), .updateOp 3 .completed none]).1
    { id := ("t"), status := .completed, retryCount := 0, submittedAt := 0,
      completedAt := some 3, error := none }
    (by decide) rfl

/-- A happy-path submission payload that passes the schema. -/
def reqHappy : SubmitRequest :=
  { id := ("t1"), amount := (10 : ℚ), currency := ("USD"), description := ("d"),
    timestamp := ("2025-01-01T00:00:00Z") }

/-- A stored record in the non-terminal processing status. -/
def processingStateT1 : TransactionState :=
  { id := ("t1"), status := .processing, retryCount := 1, submittedAt := 0 }

/-- A stored record in the terminal completed status. -/
def completedStateT1 : TransactionState :=
  { id := ("t1"), status := .completed, retryCount := 0, submittedAt := 0,
    completedAt := some 1 }

/-- C4 counterexample: a valid submission for an id whose record is in
the non-terminal processing status is answered with the 200
stored-state response and no replay message, not the claimed 202
response with message already queued. -/
theorem submit_nonterminal_replay_counterexample :
    (postTransactionsRoute 5 reqHappy (some processingStateT1) []).1 =
        SubmitResponse.okExisting processingStateT1 ∧
      ((postTransactionsRoute 5 reqHappy (some processingStateT1) []).1).isAccepted = false := by
  decide

/-- C4 (amended): for a valid submission whose id already has a record,
any status other than pending is answered with 200 carrying the stored
state unchanged, no replay message and no enqueue (this includes the
non-terminal processing status); a pending record is answered with 202
and the acceptance message, the enqueue is idempotent by job id, and no
second state record is created. -/
theorem submit_existing_record (now : Nat) (req : SubmitRequest) (st : TransactionState)
    (jobs : List String) (hv : transactionSchemaIssues req = []) :
    (st.status ≠ .pending →
      postTransactionsRoute now req (some st) jobs = (.okExisting st, some st, jobs)) ∧
      (st.status = .pending →
        postTransactionsRoute now req (some st) jobs =
          (.accepted req.id .pending ("Transaction accepted for processing"), some st,
            transactionQueueAdd req.id jobs)) := by
  constructor <;> intro h <;>
    simp [postTransactionsRoute, hv, StateService.create, h]

/-- C4 witness: a valid replay of a completed transaction gets the 200
stored-state answer without an enqueue. -/
theorem submit_existing_record_witness :
    postTransactionsRoute 9 reqHappy (some completedStateT1) [] =
      (.okExisting completedStateT1, some completedStateT1, []) :=
  (submit_existing_record 9 reqHappy completedStateT1 [] (by decide)).1 (by decide)

/-- A string has length at least one exactly when it is non-empty. -/
theorem one_le_length_iff_ne_empty (s : String) : (1 ≤ s.length) ↔ s ≠ ("") := by
  cases s with
  | mk data =>
    cases data with
    | nil => simp
    | cons c cs =>
      have h1 : (String.mk (c :: cs)).length = cs.length + 1 := rfl
      have h2 : String.mk (c :: cs) ≠ ("") := by simp [String.ext_iff]
      rw [h1]
      constructor
      · intro _
        exact h2
      · intro _
        omega

/-- C6: the submission validator rejects with 400 and the field-level
issue list, touching neither the state store nor the queue, exactly
when the payload violates the schema (id non-empty, amount strictly
positive, currency exactly three characters, description non-empty,
timestamp matching the datetime check); every payload satisfying the
schema passes validation. -/
theorem validation_rejects_iff_schema_violation (now : Nat) (req : SubmitRequest)
    (s : Option TransactionState) (jobs : List String) :
    (transactionSchemaIssues req = [] ↔ specSchemaOk req) ∧
      (transactionSchemaIssues req ≠ [] →
        postTransactionsRoute now req s jobs =
          (.badRequest (transactionSchemaIssues req), s, jobs)) ∧
      (specSchemaOk req →
        ((postTransactionsRoute now req s jobs).1).isBadRequest = false) := by
  have hiff : transactionSchemaIssues req = [] ↔ specSchemaOk req := by
    unfold transactionSchemaIssues specSchemaOk
    simp only [one_le_length_iff_ne_empty]
    split_ifs <;> simp_all
  refine ⟨hiff, ?_, ?_⟩
  · intro hne
    simp [postTransactionsRoute, hne]
  · intro hok
    have hempty : transactionSchemaIssues req = [] := hiff.mpr hok
    cases s with
    | none =>
      simp [postTransactionsRoute, hempty, StateService.create, SubmitResponse.isBadRequest]
    | some st =>
      by_cases hp : st.status = .pending <;>
        simp [postTransactionsRoute, hempty, StateService.create, hp,
          SubmitResponse.isBadRequest]

/-- C6 witness: the happy-path payload passes validation and is not
answered with 400. -/
theorem validation_rejects_iff_schema_violation_witness :
    ((postTransactionsRoute 0 reqHappy none []).1).isBadRequest = false :=
  (validation_rejects_iff_schema_violation 0 reqHappy none []).2.2 (by decide)

/-- C7 counterexample: a downstream 201 response, which is not a 200,
maps to the present outcome rather than the error outcome the claim
assigns to every status other than 200 and 404. -/
theorem getTransaction_201_counterexample :
    PostingService.getTransaction ("t") (.response 201) = .present ∧ (201 : Nat) ≠ 200 := by
  decide

/-- C7 (amended): the posting client get maps any 2xx response (the ok
range 200..299) to present, 404 to absent, and every other status as
well as timeouts and connection errors to an error outcome; it issues a
single fetch with no client-side retry. -/
theorem getTransaction_outcome_mapping (transactionId : String) (status : Nat) (msg : String) :
    (PostingService.getTransaction transactionId (.response status) = .present ↔
        (200 ≤ status ∧ status ≤ 299)) ∧
      (PostingService.getTransaction transactionId (.response status) = .absent ↔
        status = 404) ∧
      ((∃ c, PostingService.getTransaction transactionId (.response status) = .errored c) ↔
        (¬ (200 ≤ status ∧ status ≤ 299) ∧ status ≠ 404)) ∧
      (∃ c, PostingService.getTransaction transactionId .timeout = .errored c) ∧
      (∃ c, PostingService.getTransaction transactionId (.netError msg) = .errored c) := by
  simp only [PostingService.getTransaction]
  refine ⟨?_, ?_, ?_, ⟨_, rfl⟩, ⟨_, rfl⟩⟩ <;> split_ifs <;> simp_all

/-- C8: the backoff delay is base times two to the attempt number, the
default base (also the queue backoff configuration) is 1000 ms, one
second, and each retry doubles the previous gap: 1000, 2000, 4000
milliseconds and so on. -/
theorem calculateBackoffDelay_exponential (n b : Nat) :
    calculateBackoffDelay n b = b * 2 ^ n ∧
      calculateBackoffDelay n = 1000 * 2 ^ n ∧
      calculateBackoffDelay n transactionQueueBackoff.delay = 1000 * 2 ^ n ∧
      calculateBackoffDelay (n + 1) b = 2 * calculateBackoffDelay n b ∧
      calculateBackoffDelay 0 = 1000 ∧ calculateBackoffDelay 1 = 2000 ∧
      calculateBackoffDelay 2 = 4000 := by
  unfold calculateBackoffDelay transactionQueueBackoff
  refine ⟨rfl, rfl, rfl, ?_, rfl, rfl, rfl⟩
  ring
